import Mathlib

set_option autoImplicit false

namespace DlYtPlaylist

/-- Canonical video record persisted in metadata.json, mirroring the exported
Video type of src/main.ts. Durations are stored in thousandths of a second:
the ISO-8601 duration grammar accepted by the source admits at most three
fractional digits, so the JavaScript floating-point value of x seconds
corresponds exactly to the integer 1000 * x stored here, and all sums and
comparisons agree with the JavaScript ones. -/
structure Video where
  id : String
  title : String
  description : String
  channelId : String
  channelName : String
  dateCreated : String
  dateAddedToPlaylist : String
  thumbnailUrls : List String
  durationInSeconds : Nat
  url : String
  channelUrl : Option String
  audioFileExtension : Option String
  videoFileExtension : Option String
  isUnavailable : Bool
deriving DecidableEq, Repr

/-- A JavaScript object holding videos keyed by their id, in insertion order
(existingMetadataObj in STEP 6 of downloadYouTubePlaylist, src/main.ts).
All such objects are built by repeated keyed assignment, so keys are unique
by construction. -/
abbrev MetadataObj := List Video

/-- Reading existingMetadataObj[k]. -/
def lookupId (m : MetadataObj) (k : String) : Option Video :=
  m.find? (fun w => w.id == k)

/-- The assignment existingMetadataObj[video.id] = video: replace the entry
at that key keeping its position, or append a fresh key at the end
(JavaScript objects preserve insertion order). -/
def upsert : MetadataObj → Video → MetadataObj
  | [], v => [v]
  | w :: ws, v => if w.id == v.id then v :: ws else w :: upsert ws v

/-- Body of the totalMetadata.forEach reconcile loop in STEP 6 of
downloadYouTubePlaylist (src/main.ts lines 1169-1207): the four merge cases,
returning the updated object together with the amount the iteration adds to
metadataItemsUpdated. -/
def mergeVideo (m : MetadataObj) (video : Video) : MetadataObj × Nat :=
  match lookupId m video.id with
  | some existingVideo =>
    if existingVideo.isUnavailable && !video.isUnavailable then
      (upsert m video, 1)
    else if !existingVideo.isUnavailable && video.isUnavailable then
      (upsert m {existingVideo with isUnavailable := true}, 1)
    else if !existingVideo.isUnavailable && !video.isUnavailable then
      let newAudioExt := video.audioFileExtension.or existingVideo.audioFileExtension
      let newVideoExt := video.videoFileExtension.or existingVideo.videoFileExtension
      (upsert m {existingVideo with
          audioFileExtension := newAudioExt, videoFileExtension := newVideoExt},
        if newAudioExt != existingVideo.audioFileExtension
            || newVideoExt != existingVideo.videoFileExtension then 1 else 0)
    else
      (m, 0)
  | none => (upsert m video, 1)

/-- The whole totalMetadata.forEach loop: fold mergeVideo over the fresh
records, accumulating metadataItemsUpdated. -/
def reconcile : List Video → MetadataObj → MetadataObj × Nat
  | [], m => (m, 0)
  | v :: vs, m =>
    let r := mergeVideo m v
    let rest := reconcile vs r.1
    (rest.1, r.2 + rest.2)

/-- Stand-in for the ECMAScript expression +new Date(s) on the fixed-format
ISO-8601 timestamps the YouTube API returns: concatenating the digits of
such a timestamp is strictly monotone in the instant it denotes and
injective on the format, so it induces exactly the comparisons Date parsing
does there. -/
def parseDateMs (s : String) : Nat :=
  (s.toList.filter (fun c => c.isDigit)).foldl (fun n c => n * 10 + (c.toNat - 48)) 0

/-- The sort comparator (a, b) => +new Date(b.dateAddedToPlaylist) -
+new Date(a.dateAddedToPlaylist) of STEP 6: a may stay before b exactly when
the comparator value is nonpositive, i.e. when the relation below holds. -/
def dateDesc (a b : Video) : Prop :=
  parseDateMs b.dateAddedToPlaylist ≤ parseDateMs a.dateAddedToPlaylist

instance : DecidableRel dateDesc := fun _ _ => Nat.decLe _ _

instance : IsTotal Video dateDesc :=
  ⟨fun a b => Nat.le_total (parseDateMs b.dateAddedToPlaylist) (parseDateMs a.dateAddedToPlaylist)⟩

instance : IsTrans Video dateDesc :=
  ⟨fun _ _ _ h1 h2 => Nat.le_trans h2 h1⟩

/-- Object.values(existingMetadataObj).sort(comparator) of STEP 6:
ECMAScript Array.prototype.sort is required to be stable, so it is modelled
by a stable sort (insertion sort) of the insertion-ordered values. -/
def sortedMetadata (m : MetadataObj) : List Video :=
  List.insertionSort dateDesc m

/-- The STEP 6 write gate of src/main.ts: build existingMetadataObj from the
metadata.json array by keyed assignment, run the reconcile loop, and write
the sorted values only when metadataItemsUpdated is nonzero (none models
the branch that logs that metadata.json is already up to date and performs
no write). -/
def metadataWrite (totalMetadata existingMetadata : List Video) : Option (List Video) :=
  let obj := existingMetadata.foldl upsert []
  let r := reconcile totalMetadata obj
  if r.2 ≠ 0 then some (sortedMetadata r.1) else none

theorem lookupId_nil (k : String) : lookupId [] k = none := rfl

theorem lookupId_upsert_self (m : MetadataObj) (v : Video) :
    lookupId (upsert m v) v.id = some v := by
  induction m with
  | nil => simp [upsert, lookupId]
  | cons w ws ih =>
    by_cases h : w.id = v.id
    · simp [upsert, lookupId, h]
    · have hb : (w.id == v.id) = false := beq_false_of_ne h
      simp only [upsert, hb, Bool.false_eq_true, if_false]
      simpa [lookupId, hb] using ih

theorem lookupId_upsert_ne (m : MetadataObj) (v : Video) (k : String) (h : k ≠ v.id) :
    lookupId (upsert m v) k = lookupId m k := by
  induction m with
  | nil =>
    have hb : (v.id == k) = false := beq_false_of_ne (fun he => h he.symm)
    simp [upsert, lookupId, hb]
  | cons w ws ih =>
    by_cases hw : w.id = v.id
    · have hvk : (v.id == k) = false := beq_false_of_ne (fun he => h he.symm)
      have hwk : (w.id == k) = false := beq_false_of_ne (fun he => h (hw ▸ he).symm)
      simp [upsert, lookupId, hw, hvk, hwk]
    · have hb : (w.id == v.id) = false := beq_false_of_ne hw
      by_cases hwk : w.id = k
      · have hwkb : (w.id == k) = true := beq_iff_eq.mpr hwk
        simp [upsert, lookupId, hb, hwkb]
      · have hwkb : (w.id == k) = false := beq_false_of_ne hwk
        simp only [upsert, hb, Bool.false_eq_true, if_false]
        simpa [lookupId, hwkb] using ih

theorem upsert_upsert_self (m : MetadataObj) (v : Video) :
    upsert (upsert m v) v = upsert m v := by
  induction m with
  | nil => simp [upsert]
  | cons w ws ih =>
    by_cases h : w.id = v.id
    · simp [upsert, h]
    · have hb : (w.id == v.id) = false := beq_false_of_ne h
      simp [upsert, hb, ih]

theorem upsert_fixed_of_ne (m : MetadataObj) (x y : Video) (hne : x.id ≠ y.id)
    (h : upsert m y = m) : upsert (upsert m x) y = upsert m x := by
  induction m with
  | nil => exact absurd h (by simp [upsert])
  | cons w ws ih =>
    by_cases hwy : w.id = y.id
    · have hwx : (w.id == x.id) = false := beq_false_of_ne (fun he => hne (he ▸ hwy))
      have hwyb : (w.id == y.id) = true := beq_iff_eq.mpr hwy
      have hyw : y = w := by
        have := h
        simp only [upsert, hwyb, if_true] at this
        exact (List.cons.injEq _ _ _ _).mp this |>.1
      simp [upsert, hwx, hwyb, hyw]
    · have hwyb : (w.id == y.id) = false := beq_false_of_ne hwy
      have htail : upsert ws y = ws := by
        have := h
        simp only [upsert, hwyb, Bool.false_eq_true, if_false] at this
        exact (List.cons.injEq _ _ _ _).mp this |>.2
      by_cases hwx : w.id = x.id
      · have hwxb : (w.id == x.id) = true := beq_iff_eq.mpr hwx
        have hxy : (x.id == y.id) = false := beq_false_of_ne hne
        simp [upsert, hwxb, hxy, htail]
      · have hwxb : (w.id == x.id) = false := beq_false_of_ne hwx
        simp [upsert, hwxb, hwyb, ih htail]

theorem lookupId_eq_some_id (m : MetadataObj) (k : String) (e : Video)
    (h : lookupId m k = some e) : e.id = k := by
  have := List.find?_some h
  exact beq_iff_eq.mp this

theorem mergeVideo_insert (m : MetadataObj) (v : Video)
    (h : lookupId m v.id = none) : mergeVideo m v = (upsert m v, 1) := by
  simp [mergeVideo, h]

theorem mergeVideo_recover (m : MetadataObj) (v e : Video)
    (h : lookupId m v.id = some e) (h1 : e.isUnavailable = true)
    (h2 : v.isUnavailable = false) : mergeVideo m v = (upsert m v, 1) := by
  simp [mergeVideo, h, h1, h2]

theorem mergeVideo_flip (m : MetadataObj) (v e : Video)
    (h : lookupId m v.id = some e) (h1 : e.isUnavailable = false)
    (h2 : v.isUnavailable = true) :
    mergeVideo m v = (upsert m {e with isUnavailable := true}, 1) := by
  simp [mergeVideo, h, h1, h2]

theorem mergeVideo_merge (m : MetadataObj) (v e : Video)
    (h : lookupId m v.id = some e) (h1 : e.isUnavailable = false)
    (h2 : v.isUnavailable = false) :
    mergeVideo m v =
      (upsert m {e with
          audioFileExtension := v.audioFileExtension.or e.audioFileExtension,
          videoFileExtension := v.videoFileExtension.or e.videoFileExtension},
        if v.audioFileExtension.or e.audioFileExtension != e.audioFileExtension
            || v.videoFileExtension.or e.videoFileExtension != e.videoFileExtension
          then 1 else 0) := by
  simp [mergeVideo, h, h1, h2]

theorem mergeVideo_bothUnavailable (m : MetadataObj) (v e : Video)
    (h : lookupId m v.id = some e) (h1 : e.isUnavailable = true)
    (h2 : v.isUnavailable = true) : mergeVideo m v = (m, 0) := by
  simp [mergeVideo, h, h1, h2]

theorem option_or_left_idem {α : Type} (a b : Option α) : a.or (a.or b) = a.or b := by
  cases a <;> rfl

/-- A record is stable in an object when replaying the merge step for it
changes nothing and adds nothing to the update count. -/
def Stable (m : MetadataObj) (v : Video) : Prop := mergeVideo m v = (m, 0)

theorem stable_self_after_merge (m : MetadataObj) (v : Video) :
    Stable (mergeVideo m v).1 v := by
  rcases h : lookupId m v.id with _ | e
  · rw [mergeVideo_insert m v h]
    have hl : lookupId (upsert m v) v.id = some v := lookupId_upsert_self m v
    cases hv : v.isUnavailable
    · have := mergeVideo_merge (upsert m v) v v hl hv hv
      rw [Stable, this]
      simp [option_or_left_idem, upsert_upsert_self]
    · exact mergeVideo_bothUnavailable (upsert m v) v v hl hv hv
  · have hid : e.id = v.id := lookupId_eq_some_id m v.id e h
    cases he : e.isUnavailable <;> cases hv : v.isUnavailable
    · -- both available: extension merge
      rw [mergeVideo_merge m v e h he hv]
      set e2 : Video := {e with
        audioFileExtension := v.audioFileExtension.or e.audioFileExtension,
        videoFileExtension := v.videoFileExtension.or e.videoFileExtension} with he2
      have hl : lookupId (upsert m e2) v.id = some e2 := by
        have := lookupId_upsert_self m e2
        simpa [he2, hid] using this
      have := mergeVideo_merge (upsert m e2) v e2 hl (by simp [he2, he]) hv
      rw [Stable, this]
      simp [he2, option_or_left_idem, upsert_upsert_self]
    · -- available => unavailable: flip
      rw [mergeVideo_flip m v e h he hv]
      set e2 : Video := {e with isUnavailable := true} with he2
      have hl : lookupId (upsert m e2) v.id = some e2 := by
        have := lookupId_upsert_self m e2
        simpa [he2, hid] using this
      exact mergeVideo_bothUnavailable (upsert m e2) v e2 hl (by simp [he2]) hv
    · -- unavailable => available: wholesale replace
      rw [mergeVideo_recover m v e h he hv]
      have hl : lookupId (upsert m v) v.id = some v := lookupId_upsert_self m v
      have := mergeVideo_merge (upsert m v) v v hl hv hv
      rw [Stable, this]
      simp [option_or_left_idem, upsert_upsert_self]
    · -- both unavailable: untouched
      rw [mergeVideo_bothUnavailable m v e h he hv]
      exact mergeVideo_bothUnavailable m v e h he hv

theorem mergeVideo_state_cases (m : MetadataObj) (u : Video) :
    (mergeVideo m u).1 = m ∨ ∃ x : Video, x.id = u.id ∧ (mergeVideo m u).1 = upsert m x := by
  rcases h : lookupId m u.id with _ | e
  · exact Or.inr ⟨u, rfl, by rw [mergeVideo_insert m u h]⟩
  · have hid : e.id = u.id := lookupId_eq_some_id m u.id e h
    cases he : e.isUnavailable <;> cases hu : u.isUnavailable
    · exact Or.inr ⟨{e with
        audioFileExtension := u.audioFileExtension.or e.audioFileExtension,
        videoFileExtension := u.videoFileExtension.or e.videoFileExtension},
        by simpa using hid, by rw [mergeVideo_merge m u e h he hu]⟩
    · exact Or.inr ⟨{e with isUnavailable := true}, by simpa using hid,
        by rw [mergeVideo_flip m u e h he hu]⟩
    · exact Or.inr ⟨u, rfl, by rw [mergeVideo_recover m u e h he hu]⟩
    · exact Or.inl (by rw [mergeVideo_bothUnavailable m u e h he hu])

theorem lookupId_mergeVideo_ne (m : MetadataObj) (u : Video) (k : String) (hk : k ≠ u.id) :
    lookupId (mergeVideo m u).1 k = lookupId m k := by
  rcases mergeVideo_state_cases m u with hs | ⟨x, hx, hs⟩
  · rw [hs]
  · rw [hs]
    exact lookupId_upsert_ne m x k (by rw [hx]; exact hk)

theorem stable_preserved (m : MetadataObj) (u v : Video) (hne : v.id ≠ u.id)
    (hs : Stable m v) : Stable (mergeVideo m u).1 v := by
  have hlook : lookupId (mergeVideo m u).1 v.id = lookupId m v.id :=
    lookupId_mergeVideo_ne m u v.id hne
  rcases h : lookupId m v.id with _ | e
  · exfalso
    rw [Stable, mergeVideo_insert m v h] at hs
    exact one_ne_zero (congrArg Prod.snd hs)
  · have hid : e.id = v.id := lookupId_eq_some_id m v.id e h
    have hlook2 : lookupId (mergeVideo m u).1 v.id = some e := by rw [hlook, h]
    cases he : e.isUnavailable <;> cases hv : v.isUnavailable
    · -- both available: extension merge
      rw [Stable, mergeVideo_merge m v e h he hv] at hs
      cases hc : (v.audioFileExtension.or e.audioFileExtension != e.audioFileExtension
          || v.videoFileExtension.or e.videoFileExtension != e.videoFileExtension) with
      | true =>
        rw [hc] at hs
        exact absurd (congrArg Prod.snd hs) (by simp)
      | false =>
        rw [hc] at hs
        simp only [Bool.false_eq_true, if_false] at hs
        have hstate0 : upsert m {e with
            audioFileExtension := v.audioFileExtension.or e.audioFileExtension,
            videoFileExtension := v.videoFileExtension.or e.videoFileExtension} = m :=
          congrArg Prod.fst hs
        have hor := Bool.or_eq_false_iff.mp hc
        have hA : v.audioFileExtension.or e.audioFileExtension = e.audioFileExtension := by
          simpa using hor.1
        have hV : v.videoFileExtension.or e.videoFileExtension = e.videoFileExtension := by
          simpa using hor.2
        have he2 : ({e with
            audioFileExtension := v.audioFileExtension.or e.audioFileExtension,
            videoFileExtension := v.videoFileExtension.or e.videoFileExtension} : Video) = e := by
          rw [hA, hV]
        have hstate : upsert m e = m := by rw [← he2]; exact hstate0
        rw [Stable, mergeVideo_merge (mergeVideo m u).1 v e hlook2 he hv, hc]
        simp only [Bool.false_eq_true, if_false]
        rw [he2]
        rcases mergeVideo_state_cases m u with hs2 | ⟨x, hx, hs2⟩
        · rw [hs2, hstate]
        · rw [hs2]
          have hxe : x.id ≠ e.id := by
            intro hxe
            exact hne (by rw [← hid, ← hxe, hx])
          rw [upsert_fixed_of_ne m x e hxe hstate]
    · -- flip case would have counted an update: contradicts stability
      exfalso
      rw [Stable, mergeVideo_flip m v e h he hv] at hs
      exact one_ne_zero (congrArg Prod.snd hs)
    · -- recover case would have counted an update: contradicts stability
      exfalso
      rw [Stable, mergeVideo_recover m v e h he hv] at hs
      exact one_ne_zero (congrArg Prod.snd hs)
    · -- both unavailable: the record stays untouched
      exact mergeVideo_bothUnavailable (mergeVideo m u).1 v e hlook2 he hv

theorem stable_reconcile_preserved (l : List Video) (m : MetadataObj) (v : Video)
    (hs : Stable m v) (hnot : ∀ u ∈ l, v.id ≠ u.id) :
    Stable (reconcile l m).1 v := by
  induction l generalizing m with
  | nil => exact hs
  | cons u us ih =>
    have h1 : Stable (mergeVideo m u).1 v := stable_preserved m u v (hnot u (by simp)) hs
    have := ih (mergeVideo m u).1 h1 (fun w hw => hnot w (by simp [hw]))
    simpa [reconcile] using this

theorem stable_all_after_reconcile (l : List Video) (m : MetadataObj)
    (hnodup : (l.map Video.id).Nodup) :
    ∀ v ∈ l, Stable (reconcile l m).1 v := by
  induction l generalizing m with
  | nil => intro v hv; cases hv
  | cons u us ih =>
    intro v hv
    have hnodup2 : (us.map Video.id).Nodup := (List.nodup_cons.mp (by simpa using hnodup)).2
    rcases List.mem_cons.mp hv with rfl | hvus
    · have h1 : Stable (mergeVideo m v).1 v := stable_self_after_merge m v
      have hnot : ∀ w ∈ us, v.id ≠ w.id := by
        intro w hw heq
        have hmem : v.id ∈ us.map Video.id := heq ▸ List.mem_map_of_mem Video.id hw
        exact (List.nodup_cons.mp (by simpa using hnodup)).1 hmem
      have := stable_reconcile_preserved us (mergeVideo m v).1 v h1 hnot
      simpa [reconcile] using this
    · have := ih (mergeVideo m u).1 hnodup2 v hvus
      simpa [reconcile] using this

theorem reconcile_of_all_stable (l : List Video) (m : MetadataObj)
    (h : ∀ v ∈ l, Stable m v) : reconcile l m = (m, 0) := by
  induction l with
  | nil => rfl
  | cons u us ih =>
    have hu : mergeVideo m u = (m, 0) := h u (by simp)
    have hrest : reconcile us m = (m, 0) := ih (fun v hv => h v (by simp [hv]))
    simp [reconcile, hu, hrest]

/-- Concrete record builder for the concrete runs below; the fields are
populated the way STEP 2 of src/main.ts populates them. -/
def sampleVideo (vid titl dateAdded : String) (unavail : Bool) : Video :=
  { id := vid, title := titl, description := "a description", channelId := "UC1",
    channelName := "a channel", dateCreated := "2023-12-31T00:00:00Z",
    dateAddedToPlaylist := dateAdded, thumbnailUrls := [],
    durationInSeconds := 100000, url := "https://www.youtube.com/watch?v=" ++ vid,
    channelUrl := some "https://www.youtube.com/channel/UC1",
    audioFileExtension := none, videoFileExtension := none, isUnavailable := unavail }

/-- A fresh list with two records sharing one id but disagreeing on
availability: the one shape of input on which replaying the reconcile loop
keeps flipping and un-flipping the stored record. -/
def dupIdFresh : List Video :=
  [sampleVideo "dup" "First" "2024-02-02T00:00:00Z" true,
   sampleVideo "dup" "First" "2024-02-02T00:00:00Z" false]

/-- C1 counterexample: reconciliation is not idempotent for every fresh
record list. When the fresh list contains two records with the same id and
opposite availability, the second run against the state produced by the
first run again counts two updates (flip, then wholesale replace) instead
of the zero updates the claim requires. -/
theorem reconcile_second_run_counts_updates :
    (reconcile dupIdFresh (reconcile dupIdFresh []).1).2 = 2 ∧
    (reconcile dupIdFresh (reconcile dupIdFresh []).1).2 ≠ 0 := by decide

/-- C1 (amended): when the fresh records carry pairwise-distinct ids (which
holds for any single playlist fetch), the reconcile loop is idempotent:
replaying it with the same fresh input against the state produced by a
first run changes nothing and computes an update count of zero; and
whenever the loop computes update count zero, STEP 6 performs no
metadata.json write. -/
theorem reconcile_idempotent_write_gate (fresh : List Video) (m : MetadataObj)
    (hnodup : (fresh.map Video.id).Nodup) :
    reconcile fresh (reconcile fresh m).1 = ((reconcile fresh m).1, 0) ∧
    ∀ total existing : List Video,
      (reconcile total (existing.foldl upsert [])).2 = 0 →
      metadataWrite total existing = none := by
  constructor
  · exact reconcile_of_all_stable fresh _ (stable_all_after_reconcile fresh m hnodup)
  · intro total existing h0
    simp [metadataWrite, h0]

/-- A duplicate-free fresh list and a stable store used to instantiate the
idempotence and write-gate theorem. -/
def freshPairC1 : List Video :=
  [sampleVideo "a" "Alpha" "2024-01-01T00:00:00Z" false,
   sampleVideo "b" "Beta" "2024-01-02T00:00:00Z" true]

theorem reconcile_idempotent_write_gate_witness :
    reconcile freshPairC1 (reconcile freshPairC1 []).1 = ((reconcile freshPairC1 []).1, 0) ∧
    metadataWrite [sampleVideo "a" "Alpha" "2024-01-01T00:00:00Z" false]
      [sampleVideo "a" "Alpha" "2024-01-01T00:00:00Z" false] = none :=
  ⟨(reconcile_idempotent_write_gate freshPairC1 [] (by decide)).1,
   (reconcile_idempotent_write_gate freshPairC1 [] (by decide)).2
     [sampleVideo "a" "Alpha" "2024-01-01T00:00:00Z" false]
     [sampleVideo "a" "Alpha" "2024-01-01T00:00:00Z" false] (by decide)⟩

/-- C2: when the persisted record at the fresh record's id is available and
the fresh record is unavailable, the reconcile step counts exactly one
update and stores the persisted record with only isUnavailable flipped to
true: every other field (title, description, dates, extensions, thumbnails,
duration, urls) is left untouched. -/
theorem mergeVideo_flip_frame (m : MetadataObj) (v e : Video)
    (he : lookupId m v.id = some e) (hea : e.isUnavailable = false)
    (hva : v.isUnavailable = true) :
    (mergeVideo m v).2 = 1 ∧
    lookupId (mergeVideo m v).1 v.id = some {e with isUnavailable := true} ∧
    ∀ r : Video, lookupId (mergeVideo m v).1 v.id = some r →
      r.isUnavailable = true ∧ r.title = e.title ∧ r.description = e.description ∧
      r.channelId = e.channelId ∧ r.channelName = e.channelName ∧
      r.dateCreated = e.dateCreated ∧ r.dateAddedToPlaylist = e.dateAddedToPlaylist ∧
      r.thumbnailUrls = e.thumbnailUrls ∧ r.durationInSeconds = e.durationInSeconds ∧
      r.url = e.url ∧ r.channelUrl = e.channelUrl ∧
      r.audioFileExtension = e.audioFileExtension ∧
      r.videoFileExtension = e.videoFileExtension := by
  rw [mergeVideo_flip m v e he hea hva]
  have hid : e.id = v.id := lookupId_eq_some_id m v.id e he
  have hl : lookupId (upsert m {e with isUnavailable := true}) v.id =
      some {e with isUnavailable := true} := by
    have := lookupId_upsert_self m {e with isUnavailable := true}
    simpa [hid] using this
  refine ⟨rfl, hl, ?_⟩
  intro r hr
  have hre : r = {e with isUnavailable := true} := by
    rw [hl] at hr
    exact (Option.some.inj hr).symm
  subst hre
  simp

/-- Scenario records from the spec: persisted a is available with title Old,
the fresh fetch reports a unavailable and a new available b. -/
def vaOldC2 : Video := sampleVideo "a" "Old" "2024-01-01T00:00:00Z" false

/-- Fresh unavailable twin of vaOldC2. -/
def vaFreshC2 : Video := sampleVideo "a" "Private video" "2024-01-01T00:00:00Z" true

/-- Fresh new record inserted alongside. -/
def vbNewC2 : Video := sampleVideo "b" "New" "2024-01-03T00:00:00Z" false

theorem mergeVideo_flip_frame_witness :
    ((mergeVideo [vaOldC2] vaFreshC2).2 = 1 ∧
      lookupId (mergeVideo [vaOldC2] vaFreshC2).1 vaFreshC2.id =
        some {vaOldC2 with isUnavailable := true}) ∧
    reconcile [vaFreshC2, vbNewC2] [vaOldC2] =
      ([{vaOldC2 with isUnavailable := true}, vbNewC2], 2) ∧
    ({vaOldC2 with isUnavailable := true}).title = "Old" ∧
    vbNewC2.title = "New" :=
  ⟨⟨(mergeVideo_flip_frame [vaOldC2] vaFreshC2 vaOldC2 (by decide) (by decide) (by decide)).1,
    (mergeVideo_flip_frame [vaOldC2] vaFreshC2 vaOldC2 (by decide) (by decide) (by decide)).2.1⟩,
   by decide, by decide, by decide⟩

/-- C3: when the persisted record at the fresh record's id is marked
unavailable and the fresh record is available, the reconcile step counts
exactly one update and stores the fresh record verbatim: the looked-up
merged entry is the fresh record itself, so no field of the
unavailable-era record survives. -/
theorem mergeVideo_recover_replace (m : MetadataObj) (v e : Video)
    (he : lookupId m v.id = some e) (hea : e.isUnavailable = true)
    (hva : v.isUnavailable = false) :
    (mergeVideo m v).2 = 1 ∧ lookupId (mergeVideo m v).1 v.id = some v := by
  rw [mergeVideo_recover m v e he hea hva]
  exact ⟨rfl, lookupId_upsert_self m v⟩

/-- A record stored during its unavailable era. -/
def vUnavailC3 : Video := sampleVideo "c" "Unavailable era title" "2024-01-01T00:00:00Z" true

/-- The recovered fresh record for the same id. -/
def vFreshC3 : Video := sampleVideo "c" "Recovered title" "2024-01-01T00:00:00Z" false

theorem mergeVideo_recover_replace_witness :
    (mergeVideo [vUnavailC3] vFreshC3).2 = 1 ∧
    lookupId (mergeVideo [vUnavailC3] vFreshC3).1 vFreshC3.id = some vFreshC3 :=
  mergeVideo_recover_replace [vUnavailC3] vFreshC3 vUnavailC3 (by decide) (by decide) (by decide)

/-- Equal-timestamp record listed under id b. -/
def vTieB : Video := sampleVideo "b" "Tie B" "2024-05-05T00:00:00Z" false

/-- Equal-timestamp record listed under id a. -/
def vTieA : Video := sampleVideo "a" "Tie A" "2024-05-05T00:00:00Z" false

/-- C4 counterexample: the STEP 6 sort comparator consults only
dateAddedToPlaylist, so two records with equal timestamps keep whatever
insertion order the merged object happens to have; the same record set in
the two possible orders persists in two different orders, hence the id is
not a tiebreak and the order of an equal-timestamp pair is not determined
by the record set. -/
theorem sortedMetadata_no_id_tiebreak :
    parseDateMs vTieA.dateAddedToPlaylist = parseDateMs vTieB.dateAddedToPlaylist ∧
    vTieA.id = "a" ∧ vTieB.id = "b" ∧
    sortedMetadata [vTieB, vTieA] = [vTieB, vTieA] ∧
    sortedMetadata [vTieA, vTieB] = [vTieA, vTieB] := by decide

/-- C4 (amended): the persisted list is sorted descending by
dateAddedToPlaylist and is a permutation of the merged record set, and the
sort is stable: any equal-timestamp pair keeps the relative order it had in
the merged object (insertion order), with no id tiebreak. -/
theorem sortedMetadata_sorted_stable (m : MetadataObj) :
    List.Sorted dateDesc (sortedMetadata m) ∧
    (sortedMetadata m).Perm m ∧
    ∀ a b : Video,
      parseDateMs a.dateAddedToPlaylist = parseDateMs b.dateAddedToPlaylist →
      List.Sublist [a, b] m → List.Sublist [a, b] (sortedMetadata m) := by
  refine ⟨List.sorted_insertionSort dateDesc m, List.perm_insertionSort dateDesc m, ?_⟩
  intro a b hab hsub
  exact List.pair_sublist_insertionSort
    (show parseDateMs b.dateAddedToPlaylist ≤ parseDateMs a.dateAddedToPlaylist from hab.ge)
    hsub

theorem sortedMetadata_sorted_stable_witness :
    List.Sorted dateDesc (sortedMetadata [vTieB, vTieA]) ∧
    (sortedMetadata [vTieB, vTieA]).Perm [vTieB, vTieA] ∧
    List.Sublist [vTieB, vTieA] (sortedMetadata [vTieB, vTieA]) :=
  ⟨(sortedMetadata_sorted_stable [vTieB, vTieA]).1,
   (sortedMetadata_sorted_stable [vTieB, vTieA]).2.1,
   (sortedMetadata_sorted_stable [vTieB, vTieA]).2.2 vTieB vTieA (by decide) (by decide)⟩

/-- Digits of a captured group read as a decimal number (parseInt on a
digit-only capture). -/
def digitsToNat (ds : List Char) : Nat :=
  ds.foldl (fun n c => n * 10 + (c.toNat - 48)) 0

/-- One optional regex group of the form (?:(\d+)X)? for a designator
letter X: if the input starts with digits followed by X, capture the number
and consume it; otherwise capture nothing and consume nothing (the group is
skipped, exactly as the backtracking regex does, since a digit run not
followed by the designator can never match the group). Returns the captured
value (0 when the group is absent, as the source does with
matches[i] ? parseInt(matches[i]) : 0) and the remaining input. -/
def parseComponent (cs : List Char) (designator : Char) : Nat × List Char :=
  let ds := cs.takeWhile Char.isDigit
  let rest := cs.dropWhile Char.isDigit
  if ds.isEmpty then (0, cs)
  else
    match rest with
    | c :: rest2 => if c = designator then (digitsToNat ds, rest2) else (0, cs)
    | [] => (0, cs)

/-- The seconds group (?:(\d+(?:\.\d{1,3})?)S)?, whose capture is fed to
parseFloat: digits, optionally a dot and one to three fractional digits,
then the S designator. The captured value is returned in thousandths of a
second (exact, because at most three fractional digits are admitted).
A dot with zero or more than three fractional digits makes the group fail
and be skipped, exactly as the regex behaves. -/
def parseSecondsComponent (cs : List Char) : Nat × List Char :=
  let ds := cs.takeWhile Char.isDigit
  let rest := cs.dropWhile Char.isDigit
  if ds.isEmpty then (0, cs)
  else
    match rest with
    | 'S' :: rest2 => (digitsToNat ds * 1000, rest2)
    | '.' :: rest2 =>
      let fs := rest2.takeWhile Char.isDigit
      let rest3 := rest2.dropWhile Char.isDigit
      if 1 ≤ fs.length && fs.length ≤ 3 then
        match rest3 with
        | 'S' :: rest4 => (digitsToNat ds * 1000 + digitsToNat fs * 10 ^ (3 - fs.length), rest4)
        | _ => (0, cs)
      else (0, cs)
    | _ => (0, cs)

/-- parseISO8601DurationToSeconds of src/main.ts (lines 1464-1486), with the
result in thousandths of a second. The anchored regex demands a leading P,
the optional Y M W D groups, an optional T section with optional H M and
fractional-seconds groups, and end of input; when the whole string fails to
match, every capture is empty and the function returns 0, exactly as the
source computes with (durationString.match(regex) ?? []). The calendar
approximations (365-day year, 30-day month, 7-day week) are the source's
multipliers scaled by 1000. -/
def parseISO8601DurationToSeconds (durationString : String) : Nat :=
  match durationString.toList with
  | 'P' :: cs0 =>
    let r1 := parseComponent cs0 'Y'
    let r2 := parseComponent r1.2 'M'
    let r3 := parseComponent r2.2 'W'
    let r4 := parseComponent r3.2 'D'
    let rT : Nat × Nat × Nat × List Char :=
      match r4.2 with
      | 'T' :: cs5 =>
        let r5 := parseComponent cs5 'H'
        let r6 := parseComponent r5.2 'M'
        let r7 := parseSecondsComponent r6.2
        (r5.1, r6.1, r7.1, r7.2)
      | other => (0, 0, 0, other)
    if rT.2.2.2.isEmpty then
      r1.1 * 31536000000 + r2.1 * 2592000000 + r3.1 * 604800000 + r4.1 * 86400000 +
        rT.1 * 3600000 + rT.2.1 * 60000 + rT.2.2.1
    else 0
  | _ => 0

/-- The shape shared by PartialVideo records of src/main.ts
(Omit of Video over duration and the two file extensions). -/
structure PartialVideo where
  id : String
  title : String
  description : String
  channelId : String
  channelName : String
  dateCreated : String
  dateAddedToPlaylist : String
  thumbnailUrls : List String
  url : String
  channelUrl : Option String
  isUnavailable : Bool
deriving DecidableEq, Repr

/-- PartialVideo plus the durationInSeconds added after the VideosList
calls, in thousandths of a second. -/
structure PartialVideoWithDuration extends PartialVideo where
  durationInSeconds : Nat
deriving DecidableEq, Repr

/-- Reading durationsObj[id]: the per-id duration table assembled from the
VideosList responses; an id is absent when its batch call failed, its item
failed schema validation, or the API returned no entry for it. -/
def lookupDuration (durationsObj : List (String × Nat)) (k : String) : Option Nat :=
  (durationsObj.find? (fun p => p.1 == k)).map (fun p => p.2)

/-- partialVideosWithDurationMetadata of src/main.ts (lines 611-615):
durationsObj[partialVideo.id] ?? 0 spread onto each partial video. -/
def partialVideosWithDurationMetadata (durationsObj : List (String × Nat))
    (partialVideosMetadata : List PartialVideo) : List PartialVideoWithDuration :=
  partialVideosMetadata.map (fun partialVideo =>
    { toPartialVideo := partialVideo,
      durationInSeconds := (lookupDuration durationsObj partialVideo.id).getD 0 })

/-- JavaScript truthiness of existingFilesObj[id]: the value is a filename
string, truthy exactly when present and nonempty. -/
def truthy : Option String → Bool
  | some s => !(s == "")
  | none => false

/-- Reading an existing-files object (id to filename) built by
getExistingFilesObj. -/
def lookupFile (filesObj : List (String × String)) (k : String) : Option String :=
  (filesObj.find? (fun p => p.1 == k)).map (fun p => p.2)

/-- The comparison durationInSeconds <= maxDurationSeconds, where the
maxDurationSeconds option defaults to Infinity (modelled as none, which
every duration satisfies). -/
def leMaxDuration (d : Nat) (maxDurationSeconds : Option Nat) : Bool :=
  match maxDurationSeconds with
  | none => true
  | some mx => d ≤ mx

/-- potentialVideosToDownload of src/main.ts (lines 645-658): keep items
that are within the duration ceiling, available, and missing at least one
of their audio/video files on disk. -/
def potentialVideosToDownload (maxDurationSeconds : Option Nat)
    (existingAudioFilesObj existingVideoFilesObj : List (String × String))
    (pvs : List PartialVideoWithDuration) : List PartialVideoWithDuration :=
  pvs.filter (fun pv =>
    leMaxDuration pv.durationInSeconds maxDurationSeconds &&
    !pv.isUnavailable &&
    (!truthy (lookupFile existingAudioFilesObj pv.id) ||
      !truthy (lookupFile existingVideoFilesObj pv.id)))

/-- A concrete available partial video whose detail lookup yielded nothing. -/
def pvNoDuration : PartialVideo :=
  { id := "x1", title := "No duration", description := "", channelId := "UC1",
    channelName := "a channel", dateCreated := "2024-01-01T00:00:00Z",
    dateAddedToPlaylist := "2024-01-02T00:00:00Z", thumbnailUrls := [],
    url := "https://www.youtube.com/watch?v=x1",
    channelUrl := some "https://www.youtube.com/channel/UC1", isUnavailable := false }

/-- C5 counterexample: an empty duration string parses to the number 0, not
to an unknown marker, and an item whose id is absent from durationsObj gets
durationInSeconds 0 via the ?? 0 fallback; such an item passes a finite
300-second maxDurationSeconds ceiling and is selected for download. -/
theorem unknown_duration_is_zero_and_passes_ceiling :
    parseISO8601DurationToSeconds "" = 0 ∧
    (partialVideosWithDurationMetadata [] [pvNoDuration]).map
      (fun pv => pv.durationInSeconds) = [0] ∧
    potentialVideosToDownload (some 300000) [] []
        (partialVideosWithDurationMetadata [] [pvNoDuration]) =
      partialVideosWithDurationMetadata [] [pvNoDuration] := by decide

/-- C5 (amended): an item with a missing or empty duration is not treated as
unknown: the empty string parses to 0, a missing durationsObj entry is
coerced to 0 by the ?? 0 fallback, and a 0 duration satisfies the
maxDurationSeconds ceiling for every ceiling value, so such an available
not-yet-downloaded item is always selected. A well-formed duration such as
PT1H2M3.5S still parses to 3723.5 seconds. -/
theorem unknown_duration_passes_every_ceiling (durationsObj : List (String × Nat))
    (pv : PartialVideo) (maxDurationSeconds : Option Nat)
    (audioObj videoObj : List (String × String))
    (hmiss : lookupDuration durationsObj pv.id = none)
    (hav : pv.isUnavailable = false)
    (hfile : truthy (lookupFile audioObj pv.id) = false) :
    (partialVideosWithDurationMetadata durationsObj [pv]).map
      (fun q => q.durationInSeconds) = [0] ∧
    potentialVideosToDownload maxDurationSeconds audioObj videoObj
        (partialVideosWithDurationMetadata durationsObj [pv]) =
      partialVideosWithDurationMetadata durationsObj [pv] ∧
    parseISO8601DurationToSeconds "PT1H2M3.5S" = 3723500 := by
  refine ⟨?_, ?_, by decide⟩
  · simp [partialVideosWithDurationMetadata, hmiss]
  · have hle : leMaxDuration 0 maxDurationSeconds = true := by
      cases maxDurationSeconds <;> simp [leMaxDuration]
    simp [partialVideosWithDurationMetadata, potentialVideosToDownload, hmiss, hav, hfile, hle]

theorem unknown_duration_passes_every_ceiling_witness :
    (partialVideosWithDurationMetadata [("other", 5000)] [pvNoDuration]).map
      (fun q => q.durationInSeconds) = [0] ∧
    potentialVideosToDownload (some 1) [] [("x1", "No duration [x1].mp4")]
        (partialVideosWithDurationMetadata [("other", 5000)] [pvNoDuration]) =
      partialVideosWithDurationMetadata [("other", 5000)] [pvNoDuration] ∧
    parseISO8601DurationToSeconds "PT1H2M3.5S" = 3723500 :=
  unknown_duration_passes_every_ceiling [("other", 5000)] pvNoDuration (some 1)
    [] [("x1", "No duration [x1].mp4")] (by decide) (by decide) (by decide)

/-- The failure records pushed into the run-wide failures array, after the
shape of the Failure union in the source (the wall-clock date field is
omitted). The generic variant carries its context string as in the
unnamed-draft variant of downloadYouTubePlaylist. -/
inductive Failure where
  | bunWrite (file : String)
  | schemaParse (schemaName : String)
  | thumbnailDownload (url : String) (status : Nat) (statusText : String)
  | thumbnailUrlNotAvailable (urls : List String) (videoId : String)
  | generic (context : String)
deriving DecidableEq, Repr

/-- One response of the PlaylistItems API as the paginator consumes it:
its item list and its continuation token. -/
structure PlaylistPage where
  items : List String
  nextPageToken : Option String
deriving DecidableEq, Repr

/-- The network oracle for the paginator: the sequence of outcomes the
successive playlistItems.list calls would produce, an error entry standing
for a call whose awaited promise rejects. -/
abbrev FetchScript := List (Except String PlaylistPage)

deriving instance DecidableEq for Except

/-- The recursive _genPlaylistItems (src/main.ts lines 1387-1462 and the
unnamed draft): fetch a page, then either recurse with the continuation
token or return the accumulated responses. A rejected fetch makes the whole
recursion reject, losing the accumulated responses; the fetch counter is
incremented only after a successful await. totalItemsToFetch none models
the Infinity default. When the finite oracle is exhausted the accumulated
responses are returned, corresponding to a run whose last consumed page
ended the recursion. -/
def genPlaylistItemsAux : FetchScript → Option Nat → Nat → List PlaylistPage → Nat →
    Except String (List PlaylistPage × Nat)
  | [], _, _, responses, fetchCount => .ok (responses, fetchCount)
  | r :: rest, totalItemsToFetch, itemsFetchedCount, responses, fetchCount =>
    match r with
    | .error e => .error e
    | .ok page =>
      let newItemsFetchedCount := itemsFetchedCount + page.items.length
      let updatedResponses := responses ++ [page]
      let shouldContinueFetching :=
        match totalItemsToFetch with
        | none => true
        | some t => decide (newItemsFetchedCount < t)
      if page.nextPageToken.isSome && shouldContinueFetching then
        genPlaylistItemsAux rest totalItemsToFetch newItemsFetchedCount updatedResponses
          (fetchCount + 1)
      else
        .ok (updatedResponses, fetchCount + 1)

/-- genPlaylistItems with the caller-side catch of the unnamed draft
(part_021 lines 147-162): on rejection a generic failure is recorded and
the run continues with an empty response list. Returns the page list the
caller processes together with the failures pushed. -/
def genPlaylistItemsCaught (script : FetchScript) (totalItemsToFetch : Option Nat) :
    List PlaylistPage × List Failure :=
  match genPlaylistItemsAux script totalItemsToFetch 0 [] 0 with
  | .ok (responses, _) => (responses, [])
  | .error _ => ([], [Failure.generic "genPlaylistItems"])

/-- A first page that succeeds and carries a continuation token. -/
def pageOne : PlaylistPage := { items := ["v1", "v2"], nextPageToken := some "tok1" }

/-- C6 counterexample: with a successful first page followed by a failing
second fetch, the recursion rejects and the catch substitutes an empty
list: the successfully fetched first page is discarded, not returned, so
the partial result the claim promises does not exist. -/
theorem paginator_failure_discards_pages :
    genPlaylistItemsAux [Except.ok pageOne, Except.error "network down"] none 0 [] 0 =
      Except.error "network down" ∧
    genPlaylistItemsCaught [Except.ok pageOne, Except.error "network down"] none =
      ([], [Failure.generic "genPlaylistItems"]) := by decide

/-- C6 (amended): whenever a page fetch rejects mid-pagination (after any
run of successful token-carrying pages, with the default unbounded item
cap), the recursion rejects as a whole; the caller-side catch records one
generic failure and continues with an empty page list, so every previously
collected page is discarded rather than returned. -/
theorem paginator_error_loses_all_pages (okPages : List PlaylistPage) (e : String)
    (rest : FetchScript)
    (htok : ∀ p ∈ okPages, p.nextPageToken.isSome = true) :
    genPlaylistItemsAux (okPages.map Except.ok ++ Except.error e :: rest) none 0 [] 0 =
      Except.error e ∧
    genPlaylistItemsCaught (okPages.map Except.ok ++ Except.error e :: rest) none =
      ([], [Failure.generic "genPlaylistItems"]) := by
  have haux : ∀ (ps : List PlaylistPage) (fetched : Nat) (resp : List PlaylistPage)
      (count : Nat), (∀ p ∈ ps, p.nextPageToken.isSome = true) →
      genPlaylistItemsAux (ps.map Except.ok ++ Except.error e :: rest) none fetched resp count =
        Except.error e := by
    intro ps
    induction ps with
    | nil => intro fetched resp count _; rfl
    | cons p ps ih =>
      intro fetched resp count htok2
      have hp : p.nextPageToken.isSome = true := htok2 p (by simp)
      simp only [List.map_cons, List.cons_append, genPlaylistItemsAux, hp, Bool.true_and,
        if_true]
      exact ih _ _ _ (fun q hq => htok2 q (by simp [hq]))
  have h1 := haux okPages 0 [] 0 htok
  refine ⟨h1, ?_⟩
  simp [genPlaylistItemsCaught, h1]

theorem paginator_error_loses_all_pages_witness :
    genPlaylistItemsAux [Except.ok pageOne, Except.error "boom"] none 0 [] 0 =
      Except.error "boom" ∧
    genPlaylistItemsCaught [Except.ok pageOne, Except.error "boom"] none =
      ([], [Failure.generic "genPlaylistItems"]) :=
  paginator_error_loses_all_pages [pageOne] "boom" [] (by decide)

/-- The thumbnails object of a raw PlaylistItems response item; each quality
tier is optional and collapsed here to its url (the source reads
snippet.thumbnails.<tier>?.url). The defaultThumbnail field models the
source's default key. -/
structure RawThumbnails where
  maxres : Option String
  standard : Option String
  high : Option String
  medium : Option String
  defaultThumbnail : Option String
deriving DecidableEq, Repr

/-- The snippet of a raw PlaylistItems response item before validation;
every field may be absent. resourceId holds resourceId.videoId. -/
structure RawSnippet where
  resourceId : Option String
  title : Option String
  description : Option String
  videoOwnerChannelId : Option String
  videoOwnerChannelTitle : Option String
  publishedAt : Option String
  thumbnails : Option RawThumbnails
deriving DecidableEq, Repr

/-- The contentDetails of a raw PlaylistItems response item. -/
structure RawContentDetails where
  videoPublishedAt : Option String
deriving DecidableEq, Repr

/-- One raw PlaylistItems response item, as handed to safeParse. -/
structure RawPlaylistItem where
  id : Option String
  snippet : Option RawSnippet
  contentDetails : Option RawContentDetails
deriving DecidableEq, Repr

/-- The output shape of a successful safeParse(PlaylistItemSchema, item). -/
structure ParsedPlaylistItem where
  id : String
  videoId : String
  title : String
  description : String
  videoOwnerChannelId : String
  videoOwnerChannelTitle : String
  publishedAt : String
  thumbnails : RawThumbnails
  videoPublishedAt : String
deriving DecidableEq, Repr

/-- safeParse(PlaylistItemSchema, item) of src/schemas.ts: id, snippet with
resourceId.videoId, title, description, publishedAt, thumbnails and
contentDetails are required; videoOwnerChannelId, videoOwnerChannelTitle
and videoPublishedAt are optional with empty-string defaults. -/
def safeParsePlaylistItem (item : RawPlaylistItem) : Option ParsedPlaylistItem :=
  match item.id, item.snippet, item.contentDetails with
  | some idv, some s, some cd =>
    match s.resourceId, s.title, s.description, s.publishedAt, s.thumbnails with
    | some vid, some t, some d, some pub, some th =>
      some { id := idv, videoId := vid, title := t, description := d,
             videoOwnerChannelId := s.videoOwnerChannelId.getD "",
             videoOwnerChannelTitle := s.videoOwnerChannelTitle.getD "",
             publishedAt := pub, thumbnails := th,
             videoPublishedAt := cd.videoPublishedAt.getD "" }
    | _, _, _, _, _ => none
  | _, _, _ => none

/-- The per-item body of the partialVideosMetadata reduce in STEP 2 of
src/main.ts (lines 376-418): the availability mark is computed from the raw
snippet title alone before validation, a failed validation records a
schemaParse failure and skips the item, and a validated item becomes a
PartialVideo. The sanitize argument is the sanitize-filename library
collaborator used for the title. -/
def normalizeItem (sanitize : String → String) (item : RawPlaylistItem) :
    Except Failure PartialVideo :=
  let isUnavailable :=
    (item.snippet.bind RawSnippet.title == some "Private video") ||
    (item.snippet.bind RawSnippet.title == some "Deleted video")
  match safeParsePlaylistItem item with
  | none => .error (Failure.schemaParse "PlaylistItemSchema")
  | some o =>
    .ok { id := o.videoId, title := sanitize o.title, description := o.description,
          channelId := o.videoOwnerChannelId, channelName := o.videoOwnerChannelTitle,
          dateCreated := o.videoPublishedAt, dateAddedToPlaylist := o.publishedAt,
          thumbnailUrls := [o.thumbnails.maxres, o.thumbnails.standard, o.thumbnails.high,
            o.thumbnails.medium, o.thumbnails.defaultThumbnail].reduceOption,
          url := "https://www.youtube.com/watch?v=" ++ o.videoId,
          channelUrl := some ("https://www.youtube.com/channel/" ++ o.videoOwnerChannelId),
          isUnavailable := isUnavailable }

/-- The full partialVideosMetadata reduce over all PlaylistItems responses:
normalized records accumulate in order, schema failures accumulate in the
failures array. -/
def partialVideosMetadata (sanitize : String → String)
    (responses : List (List RawPlaylistItem)) : List PartialVideo × List Failure :=
  responses.foldl (fun acc items =>
    items.foldl (fun acc2 item =>
      match normalizeItem sanitize item with
      | .error f => (acc2.1, acc2.2 ++ [f])
      | .ok pv => (acc2.1 ++ [pv], acc2.2)) acc) ([], [])

/-- Following the claim's words: an item is unavailable when its title or
its description matches one of the fixed provider sentinel strings. Used
only to compare the claimed classification with the implemented one. -/
def specSentinelUnavailable (item : RawPlaylistItem) : Bool :=
  (item.snippet.bind RawSnippet.title == some "Private video") ||
  (item.snippet.bind RawSnippet.title == some "Deleted video") ||
  (item.snippet.bind RawSnippet.description == some "This video is unavailable.")

/-- The availability mark of the main2.ts draft (lines 147-149), which
consults only the description sentinel. -/
def isUnavailableMain2 (item : RawPlaylistItem) : Bool :=
  item.snippet.bind RawSnippet.description == some "This video is unavailable."

/-- A complete thumbnails object for the concrete raw items. -/
def fullThumbs : RawThumbnails :=
  { maxres := some "https://i.ytimg.com/max.jpg", standard := none,
    high := some "https://i.ytimg.com/hq.jpg", medium := none,
    defaultThumbnail := some "https://i.ytimg.com/df.jpg" }

/-- The snippet of descSentinelItem: ordinary title, sentinel description. -/
def descSentinelSnippet : RawSnippet :=
  { resourceId := some "vid1", title := some "Some nice video",
    description := some "This video is unavailable.",
    videoOwnerChannelId := some "UC9", videoOwnerChannelTitle := some "chan",
    publishedAt := some "2024-03-03T00:00:00Z", thumbnails := some fullThumbs }

/-- A raw item that is schema-valid, has an ordinary title, and carries the
description sentinel. -/
def descSentinelItem : RawPlaylistItem :=
  { id := some "pli1", snippet := some descSentinelSnippet,
    contentDetails := some { videoPublishedAt := some "2024-03-01T00:00:00Z" } }

/-- C7 counterexample: the main.ts normalizer consults only the title, so a
schema-valid item whose description equals the provider sentinel is still
classified available, although the claimed title-or-description rule
requires it to be unavailable. -/
theorem classification_ignores_description :
    specSentinelUnavailable descSentinelItem = true ∧
    (partialVideosMetadata (fun s => s) [[descSentinelItem]]).1.map
      PartialVideo.isUnavailable = [false] := by decide

theorem parse_gives_snippet_title (item : RawPlaylistItem) (o : ParsedPlaylistItem)
    (h : safeParsePlaylistItem item = some o) :
    item.snippet.bind RawSnippet.title = some o.title := by
  rcases item with ⟨i, s, cd⟩
  rcases i with _ | i
  · simp [safeParsePlaylistItem] at h
  rcases s with _ | s
  · simp [safeParsePlaylistItem] at h
  rcases cd with _ | cd
  · simp [safeParsePlaylistItem] at h
  rcases s with ⟨rid, t, d, ci, ct, pub, th⟩
  rcases rid with _ | rid
  · simp [safeParsePlaylistItem] at h
  rcases t with _ | t
  · simp [safeParsePlaylistItem] at h
  rcases d with _ | d
  · simp [safeParsePlaylistItem] at h
  rcases pub with _ | pub
  · simp [safeParsePlaylistItem] at h
  rcases th with _ | th
  · simp [safeParsePlaylistItem] at h
  simp only [safeParsePlaylistItem, Option.some.injEq] at h
  simp [Option.bind, ← h]

/-- C7 (amended): for every raw playlist item the main.ts normalizer
accepts, the produced record is marked unavailable exactly when the item's
title is the sentinel Private video or Deleted video; the description is
never consulted there (the description sentinel belongs to the separate
main2.ts draft, whose classifier is isUnavailableMain2). -/
theorem isUnavailable_iff_title_sentinel (sanitize : String → String)
    (item : RawPlaylistItem) (o : ParsedPlaylistItem)
    (h : safeParsePlaylistItem item = some o) :
    ∃ pv : PartialVideo, normalizeItem sanitize item = Except.ok pv ∧
      (pv.isUnavailable = true ↔ (o.title = "Private video" ∨ o.title = "Deleted video")) := by
  have ht := parse_gives_snippet_title item o h
  simp only [normalizeItem, h]
  refine ⟨_, rfl, ?_⟩
  simp [ht]

/-- The snippet of privateTitleItem. -/
def privateTitleSnippet : RawSnippet :=
  { resourceId := some "vid2", title := some "Private video",
    description := some "This video is private.",
    videoOwnerChannelId := none, videoOwnerChannelTitle := none,
    publishedAt := some "2024-03-04T00:00:00Z", thumbnails := some fullThumbs }

/-- A raw item carrying the Private video title sentinel. -/
def privateTitleItem : RawPlaylistItem :=
  { id := some "pli2", snippet := some privateTitleSnippet,
    contentDetails := some { videoPublishedAt := none } }

/-- The parse output of privateTitleItem. -/
def privateTitleParsed : ParsedPlaylistItem :=
  { id := "pli2", videoId := "vid2", title := "Private video",
    description := "This video is private.", videoOwnerChannelId := "",
    videoOwnerChannelTitle := "", publishedAt := "2024-03-04T00:00:00Z",
    thumbnails := fullThumbs, videoPublishedAt := "" }

theorem isUnavailable_iff_title_sentinel_witness :
    ∃ pv : PartialVideo, normalizeItem (fun s => s) privateTitleItem = Except.ok pv ∧
      (pv.isUnavailable = true ↔
        (privateTitleParsed.title = "Private video" ∨
          privateTitleParsed.title = "Deleted video")) :=
  isUnavailable_iff_title_sentinel (fun s => s) privateTitleItem privateTitleParsed (by decide)

/-- What the fetch of one thumbnail url yields: the HTTP status, the final
response url (res.url, the redirect target the server provided), the
status text, and whether the subsequent Bun.write of the body would
succeed. -/
structure ThumbResponse where
  status : Nat
  responseUrl : String
  statusText : String
  writeOk : Bool
deriving DecidableEq, Repr

/-- The network and filesystem oracle for thumbnail downloads: the response
each url produces. -/
abbrev ThumbOracle := String → ThumbResponse

/-- res.ok of the Fetch specification: status in the 200-299 range. -/
def resOk (r : ThumbResponse) : Bool :=
  200 ≤ r.status && r.status ≤ 299

/-- How one thumbnail item's attempt ends: the promise resolves after a
successful write from the given url, or rejects with a recorded Failure
(which the STEP 5 caller catches and appends to the failures array), or -
since the source recursion carries no bound - the fuel of the embedding
runs out, modelling a recursion that has not reached any terminal state. -/
inductive ThumbResult where
  | success (fromUrl : String)
  | failure (f : Failure)
  | outOfFuel
deriving DecidableEq, Repr

/-- _downloadThumbnailFile of src/main.ts (lines 1508-1586): exhausted
candidate list throws thumbnailUrlNotAvailable; otherwise fetch the
redirected url if one was handed down, else the candidate at the current
index; a 4xx status moves to the next candidate, a 3xx status retries the
same index with the response url, any other non-ok status throws
thumbnailDownload, and a failing write throws a Bun.write failure. The
fuel argument counts remaining recursive calls; the source has no such
bound, so outOfFuel marks runs the source would still be recursing in. -/
def downloadThumbnailFileAux (oracle : ThumbOracle) (urls : List String) (id : String)
    (thumbnailDirectory : String) : Nat → Nat → Option String → ThumbResult
  | 0, index, _ =>
    if index ≥ urls.length then
      ThumbResult.failure (Failure.thumbnailUrlNotAvailable urls id)
    else
      ThumbResult.outOfFuel
  | fuel + 1, index, redirectedUrl =>
    if index ≥ urls.length then
      ThumbResult.failure (Failure.thumbnailUrlNotAvailable urls id)
    else
      let url := redirectedUrl.getD (urls.getD index "")
      let res := oracle url
      if 400 ≤ res.status && res.status ≤ 499 then
        downloadThumbnailFileAux oracle urls id thumbnailDirectory fuel (index + 1) none
      else if 300 ≤ res.status && res.status ≤ 399 then
        downloadThumbnailFileAux oracle urls id thumbnailDirectory fuel index
          (some res.responseUrl)
      else if !resOk res then
        ThumbResult.failure (Failure.thumbnailDownload url res.status res.statusText)
      else if res.writeOk then
        ThumbResult.success url
      else
        ThumbResult.failure (Failure.bunWrite (thumbnailDirectory ++ "/" ++ id ++ ".jpg"))

/-- downloadThumbnailFile: the public entry starts at index 0 with no
redirected url. -/
def downloadThumbnailFile (oracle : ThumbOracle) (urls : List String) (id : String)
    (thumbnailDirectory : String) (fuel : Nat) : ThumbResult :=
  downloadThumbnailFileAux oracle urls id thumbnailDirectory fuel 0 none

/-- The oracle of the spec's fallback scenario: bad404 responds 404,
redirectTo responds 301 pointing at validTarget, and both validTarget and
valid2 respond 200 with a successful write. -/
def scenarioOracle : ThumbOracle := fun url =>
  if url == "bad404" then { status := 404, responseUrl := "", statusText := "Not Found", writeOk := true }
  else if url == "redirectTo" then { status := 301, responseUrl := "validTarget", statusText := "Moved", writeOk := true }
  else if url == "validTarget" then { status := 200, responseUrl := "validTarget", statusText := "OK", writeOk := true }
  else { status := 200, responseUrl := url, statusText := "OK", writeOk := true }


theorem downloadThumbnailFileAux_exhausted (oracle : ThumbOracle) (urls : List String)
    (id dir : String) (fuel index : Nat) (r : Option String)
    (hidx : index ≥ urls.length) :
    downloadThumbnailFileAux oracle urls id dir fuel index r =
      ThumbResult.failure (Failure.thumbnailUrlNotAvailable urls id) := by
  cases fuel <;> (rw [downloadThumbnailFileAux]; simp [hidx])

theorem downloadThumbnailFileAux_zero (oracle : ThumbOracle) (urls : List String)
    (id dir : String) (index : Nat) (r : Option String)
    (hidx : ¬ index ≥ urls.length) :
    downloadThumbnailFileAux oracle urls id dir 0 index r = ThumbResult.outOfFuel := by
  rw [downloadThumbnailFileAux]
  simp [hidx]

theorem downloadThumbnailFileAux_succ (oracle : ThumbOracle) (urls : List String)
    (id dir : String) (fuel index : Nat) (r : Option String)
    (hidx : ¬ index ≥ urls.length) :
    downloadThumbnailFileAux oracle urls id dir (fuel + 1) index r =
      (if 400 ≤ (oracle (r.getD (urls.getD index ""))).status &&
          (oracle (r.getD (urls.getD index ""))).status ≤ 499 then
        downloadThumbnailFileAux oracle urls id dir fuel (index + 1) none
      else if 300 ≤ (oracle (r.getD (urls.getD index ""))).status &&
          (oracle (r.getD (urls.getD index ""))).status ≤ 399 then
        downloadThumbnailFileAux oracle urls id dir fuel index
          (some (oracle (r.getD (urls.getD index ""))).responseUrl)
      else if !resOk (oracle (r.getD (urls.getD index ""))) then
        ThumbResult.failure (Failure.thumbnailDownload (r.getD (urls.getD index ""))
          (oracle (r.getD (urls.getD index ""))).status
          (oracle (r.getD (urls.getD index ""))).statusText)
      else if (oracle (r.getD (urls.getD index ""))).writeOk then
        ThumbResult.success (r.getD (urls.getD index ""))
      else
        ThumbResult.failure (Failure.bunWrite (dir ++ "/" ++ id ++ ".jpg"))) := by
  rw [downloadThumbnailFileAux, if_neg hidx]

/-- An oracle whose every response is a 404. -/
def allNotFoundOracle : ThumbOracle := fun _ =>
  { status := 404, responseUrl := "", statusText := "Not Found", writeOk := true }

/-- C8: the thumbnail fallback cascade. A 4xx response advances to the next
candidate url with the redirect slot cleared; a 3xx response retries the
same index using the server-provided redirect target; every other non-ok
status - any status outside the 4xx range, the 3xx range and the ok range
200-299 - ends the attempt with a recorded thumbnailDownload failure, and
a failing local write at any ok status ends it with a recorded Bun.write
failure (both rejections are caught per item by the STEP 5 caller, so the
run continues); an all-4xx oracle exhausts every candidate and ends in the
thumbnailUrlNotAvailable failure; and on the spec's scenario
[bad404, redirectTo, valid2] the download succeeds from the redirect
target validTarget, not from valid2. -/
theorem thumbnail_fallback_cascade (oracle : ThumbOracle) (urls : List String)
    (id dir : String) (fuel index : Nat) (r : Option String)
    (hidx : index < urls.length) :
    (400 ≤ (oracle (r.getD (urls.getD index ""))).status →
      (oracle (r.getD (urls.getD index ""))).status ≤ 499 →
      downloadThumbnailFileAux oracle urls id dir (fuel + 1) index r =
        downloadThumbnailFileAux oracle urls id dir fuel (index + 1) none) ∧
    (300 ≤ (oracle (r.getD (urls.getD index ""))).status →
      (oracle (r.getD (urls.getD index ""))).status ≤ 399 →
      downloadThumbnailFileAux oracle urls id dir (fuel + 1) index r =
        downloadThumbnailFileAux oracle urls id dir fuel index
          (some (oracle (r.getD (urls.getD index ""))).responseUrl)) ∧
    (¬ (400 ≤ (oracle (r.getD (urls.getD index ""))).status ∧
        (oracle (r.getD (urls.getD index ""))).status ≤ 499) →
      ¬ (300 ≤ (oracle (r.getD (urls.getD index ""))).status ∧
        (oracle (r.getD (urls.getD index ""))).status ≤ 399) →
      ¬ (200 ≤ (oracle (r.getD (urls.getD index ""))).status ∧
        (oracle (r.getD (urls.getD index ""))).status ≤ 299) →
      downloadThumbnailFileAux oracle urls id dir (fuel + 1) index r =
        ThumbResult.failure (Failure.thumbnailDownload (r.getD (urls.getD index ""))
          (oracle (r.getD (urls.getD index ""))).status
          (oracle (r.getD (urls.getD index ""))).statusText)) ∧
    (¬ (400 ≤ (oracle (r.getD (urls.getD index ""))).status ∧
        (oracle (r.getD (urls.getD index ""))).status ≤ 499) →
      ¬ (300 ≤ (oracle (r.getD (urls.getD index ""))).status ∧
        (oracle (r.getD (urls.getD index ""))).status ≤ 399) →
      200 ≤ (oracle (r.getD (urls.getD index ""))).status →
      (oracle (r.getD (urls.getD index ""))).status ≤ 299 →
      (oracle (r.getD (urls.getD index ""))).writeOk = false →
      downloadThumbnailFileAux oracle urls id dir (fuel + 1) index r =
        ThumbResult.failure (Failure.bunWrite (dir ++ "/" ++ id ++ ".jpg"))) ∧
    ((∀ u, 400 ≤ (oracle u).status ∧ (oracle u).status ≤ 499) →
      ∀ fuel2 index2 r2, urls.length ≤ index2 + fuel2 →
        downloadThumbnailFileAux oracle urls id dir fuel2 index2 r2 =
          ThumbResult.failure (Failure.thumbnailUrlNotAvailable urls id)) ∧
    downloadThumbnailFile scenarioOracle ["bad404", "redirectTo", "valid2"]
      "vid" "thumbs" 4 = ThumbResult.success "validTarget" := by
  have hnge : ¬ index ≥ urls.length := Nat.not_le.mpr hidx
  refine ⟨?_, ?_, ?_, ?_, ?_, by decide⟩
  · intro h1 h2
    rw [downloadThumbnailFileAux_succ oracle urls id dir fuel index r hnge]
    have hb : (400 ≤ (oracle (r.getD (urls.getD index ""))).status &&
        (oracle (r.getD (urls.getD index ""))).status ≤ 499) = true := by
      rw [decide_eq_true h1, decide_eq_true h2]
      rfl
    rw [if_pos hb]
  · intro h1 h2
    rw [downloadThumbnailFileAux_succ oracle urls id dir fuel index r hnge]
    have hn4 : ¬ 400 ≤ (oracle (r.getD (urls.getD index ""))).status := by omega
    have hb1 : ¬ ((400 ≤ (oracle (r.getD (urls.getD index ""))).status &&
        (oracle (r.getD (urls.getD index ""))).status ≤ 499) = true) := by
      rw [decide_eq_false hn4]
      simp
    have hb2 : (300 ≤ (oracle (r.getD (urls.getD index ""))).status &&
        (oracle (r.getD (urls.getD index ""))).status ≤ 399) = true := by
      rw [decide_eq_true h1, decide_eq_true h2]
      rfl
    rw [if_neg hb1, if_pos hb2]
  · intro hn4 hn3 hnok
    rw [downloadThumbnailFileAux_succ oracle urls id dir fuel index r hnge]
    have hb1 : ¬ ((400 ≤ (oracle (r.getD (urls.getD index ""))).status &&
        (oracle (r.getD (urls.getD index ""))).status ≤ 499) = true) := by
      simp only [Bool.and_eq_true, decide_eq_true_eq]
      exact hn4
    have hb2 : ¬ ((300 ≤ (oracle (r.getD (urls.getD index ""))).status &&
        (oracle (r.getD (urls.getD index ""))).status ≤ 399) = true) := by
      simp only [Bool.and_eq_true, decide_eq_true_eq]
      exact hn3
    have hb3 : (!resOk (oracle (r.getD (urls.getD index "")))) = true := by
      have hf : resOk (oracle (r.getD (urls.getD index ""))) = false := by
        cases hr : resOk (oracle (r.getD (urls.getD index ""))) with
        | false => rfl
        | true =>
          exfalso
          simp only [resOk, Bool.and_eq_true, decide_eq_true_eq] at hr
          exact hnok hr
      rw [hf]
      rfl
    rw [if_neg hb1, if_neg hb2, if_pos hb3]
  · intro hn4 hn3 hok1 hok2 hw
    rw [downloadThumbnailFileAux_succ oracle urls id dir fuel index r hnge]
    have hb1 : ¬ ((400 ≤ (oracle (r.getD (urls.getD index ""))).status &&
        (oracle (r.getD (urls.getD index ""))).status ≤ 499) = true) := by
      simp only [Bool.and_eq_true, decide_eq_true_eq]
      exact hn4
    have hb2 : ¬ ((300 ≤ (oracle (r.getD (urls.getD index ""))).status &&
        (oracle (r.getD (urls.getD index ""))).status ≤ 399) = true) := by
      simp only [Bool.and_eq_true, decide_eq_true_eq]
      exact hn3
    have hb3 : ¬ ((!resOk (oracle (r.getD (urls.getD index "")))) = true) := by
      have ht : resOk (oracle (r.getD (urls.getD index ""))) = true := by
        simp only [resOk, Bool.and_eq_true, decide_eq_true_eq]
        exact ⟨hok1, hok2⟩
      rw [ht]
      simp
    have hb4 : ¬ ((oracle (r.getD (urls.getD index ""))).writeOk = true) := by
      rw [hw]
      simp
    rw [if_neg hb1, if_neg hb2, if_neg hb3, if_neg hb4]
  · intro hall fuel2
    induction fuel2 with
    | zero =>
      intro index2 r2 hle
      have hge2 : index2 ≥ urls.length := by omega
      exact downloadThumbnailFileAux_exhausted oracle urls id dir 0 index2 r2 hge2
    | succ fuel3 ih =>
      intro index2 r2 hle
      rcases Nat.lt_or_ge index2 urls.length with hlt | hge2
      · have hnge2 : ¬ index2 ≥ urls.length := Nat.not_le.mpr hlt
        rw [downloadThumbnailFileAux_succ oracle urls id dir fuel3 index2 r2 hnge2]
        have h12 := hall (r2.getD (urls.getD index2 ""))
        have hb : (400 ≤ (oracle (r2.getD (urls.getD index2 ""))).status &&
            (oracle (r2.getD (urls.getD index2 ""))).status ≤ 499) = true := by
          rw [decide_eq_true h12.1, decide_eq_true h12.2]
          rfl
        rw [if_pos hb]
        exact ih (index2 + 1) none (by omega)
      · exact downloadThumbnailFileAux_exhausted oracle urls id dir (fuel3 + 1) index2 r2 hge2

/-- An oracle answering 503 for every url. -/
def serverErrorOracle : ThumbOracle := fun _ =>
  { status := 503, responseUrl := "", statusText := "Service Unavailable", writeOk := true }

/-- An oracle answering an ok 204 whose local write fails, for every url. -/
def writeFailOracle : ThumbOracle := fun u =>
  { status := 204, responseUrl := u, statusText := "No Content", writeOk := false }

theorem thumbnail_fallback_cascade_witness :
    (downloadThumbnailFileAux allNotFoundOracle ["u1", "u2"] "vid" "thumbs" 1 0 none =
      downloadThumbnailFileAux allNotFoundOracle ["u1", "u2"] "vid" "thumbs" 0 1 none) ∧
    (downloadThumbnailFileAux serverErrorOracle ["u1"] "vid" "thumbs" 1 0 none =
      ThumbResult.failure
        (Failure.thumbnailDownload "u1" 503 "Service Unavailable")) ∧
    (downloadThumbnailFileAux writeFailOracle ["u1"] "vid" "thumbs" 1 0 none =
      ThumbResult.failure (Failure.bunWrite ("thumbs" ++ "/" ++ "vid" ++ ".jpg"))) ∧
    (downloadThumbnailFileAux allNotFoundOracle ["u1", "u2"] "vid" "thumbs" 3 0 none =
      ThumbResult.failure (Failure.thumbnailUrlNotAvailable ["u1", "u2"] "vid")) ∧
    downloadThumbnailFile scenarioOracle ["bad404", "redirectTo", "valid2"]
      "vid" "thumbs" 4 = ThumbResult.success "validTarget" :=
  ⟨(thumbnail_fallback_cascade allNotFoundOracle ["u1", "u2"] "vid" "thumbs" 0 0 none
      (by decide)).1 (by simp [allNotFoundOracle]) (by simp [allNotFoundOracle]),
   (thumbnail_fallback_cascade serverErrorOracle ["u1"] "vid" "thumbs" 0 0 none
      (by decide)).2.2.1 (by decide) (by decide) (by decide),
   (thumbnail_fallback_cascade writeFailOracle ["u1"] "vid" "thumbs" 0 0 none
      (by decide)).2.2.2.1 (by decide) (by decide) (by decide) (by decide) (by decide),
   (thumbnail_fallback_cascade allNotFoundOracle ["u1", "u2"] "vid" "thumbs" 0 0 none
      (by decide)).2.2.2.2.1
      (fun u => ⟨by simp [allNotFoundOracle], by simp [allNotFoundOracle]⟩) 3 0 none
      (by decide),
   (thumbnail_fallback_cascade allNotFoundOracle ["u1", "u2"] "vid" "thumbs" 0 0 none
      (by decide)).2.2.2.2.2⟩

/-- C10: the 3xx branch of _downloadThumbnailFile recurses on the same
index with the server-provided redirect url and no measure decreases, so
against an oracle that always answers with a 3xx status the recursion
never reaches a terminal state, whatever bound is allowed; termination
needs the precondition that redirect chains end. When no response is a
3xx, the index strictly increases on every recursive call and
urls.length + 1 steps from the start always reach a terminal result. -/
theorem thumbnail_redirect_unbounded (oracle : ThumbOracle) (urls : List String)
    (id dir : String)
    (hadv : ∀ u, 300 ≤ (oracle u).status ∧ (oracle u).status ≤ 399) :
    (∀ fuel index r, index < urls.length →
      downloadThumbnailFileAux oracle urls id dir fuel index r = ThumbResult.outOfFuel) ∧
    ∀ oracle2 : ThumbOracle,
      (∀ u, ¬(300 ≤ (oracle2 u).status ∧ (oracle2 u).status ≤ 399)) →
      ∀ fuel index r, urls.length < index + fuel →
        downloadThumbnailFileAux oracle2 urls id dir fuel index r ≠ ThumbResult.outOfFuel := by
  constructor
  · intro fuel
    induction fuel with
    | zero =>
      intro index r hidx
      exact downloadThumbnailFileAux_zero oracle urls id dir index r (Nat.not_le.mpr hidx)
    | succ fuel2 ih =>
      intro index r hidx
      rw [downloadThumbnailFileAux_succ oracle urls id dir fuel2 index r (Nat.not_le.mpr hidx)]
      have h12 := hadv (r.getD (urls.getD index ""))
      have hb1 : ¬ ((400 ≤ (oracle (r.getD (urls.getD index ""))).status &&
          (oracle (r.getD (urls.getD index ""))).status ≤ 499) = true) := by
        rw [decide_eq_false (show ¬ 400 ≤ (oracle (r.getD (urls.getD index ""))).status by
          have := h12.2
          omega)]
        simp
      have hb2 : (300 ≤ (oracle (r.getD (urls.getD index ""))).status &&
          (oracle (r.getD (urls.getD index ""))).status ≤ 399) = true := by
        rw [decide_eq_true h12.1, decide_eq_true h12.2]
        rfl
      rw [if_neg hb1, if_pos hb2]
      exact ih index (some (oracle (r.getD (urls.getD index ""))).responseUrl) hidx
  · intro oracle2 hno fuel
    induction fuel with
    | zero =>
      intro index r hle
      have hge : index ≥ urls.length := by omega
      rw [downloadThumbnailFileAux_exhausted oracle2 urls id dir 0 index r hge]
      simp
    | succ fuel2 ih =>
      intro index r hle
      rcases Nat.lt_or_ge index urls.length with hlt | hge
      · rw [downloadThumbnailFileAux_succ oracle2 urls id dir fuel2 index r (Nat.not_le.mpr hlt)]
        split_ifs with hb1 hb2 hb3 hb4
        · exact ih (index + 1) none (by omega)
        · exfalso
          simp only [Bool.and_eq_true, decide_eq_true_eq] at hb2
          exact hno (r.getD (urls.getD index "")) hb2
        · simp
        · simp
        · simp
      · rw [downloadThumbnailFileAux_exhausted oracle2 urls id dir (fuel2 + 1) index r hge]
        simp

/-- An oracle that always redirects every url to itself. -/
def alwaysRedirectOracle : ThumbOracle := fun url =>
  { status := 301, responseUrl := url, statusText := "Moved", writeOk := true }

theorem thumbnail_redirect_unbounded_witness :
    (downloadThumbnailFileAux alwaysRedirectOracle ["u1"] "vid" "thumbs" 5 0 none =
      ThumbResult.outOfFuel) ∧
    downloadThumbnailFileAux allNotFoundOracle ["u1"] "vid" "thumbs" 2 0 none ≠
      ThumbResult.outOfFuel :=
  ⟨(thumbnail_redirect_unbounded alwaysRedirectOracle ["u1"] "vid" "thumbs"
      (fun u => ⟨by simp [alwaysRedirectOracle], by simp [alwaysRedirectOracle]⟩)).1
      5 0 none (by decide),
   (thumbnail_redirect_unbounded alwaysRedirectOracle ["u1"] "vid" "thumbs"
      (fun u => ⟨by simp [alwaysRedirectOracle], by simp [alwaysRedirectOracle]⟩)).2
      allNotFoundOracle (fun u => by simp [allNotFoundOracle]) 2 0 none (by decide)⟩

/-- The download kind requested by the caller. -/
inductive DownloadType where
  | audio
  | video
  | both
  | none
deriving DecidableEq, Repr

/-- The kind of yt-dlp invocation pushed for one record: videoPromiseFxn,
audioPromiseFxn, the combined bothPromiseFxn (one yt-dlp call downloading
the video and extracting the audio), or the download-free nonePromiseFxn. -/
inductive DownloadAction where
  | audioOnly
  | videoOnly
  | audioAndVideo
  | metadataOnly
deriving DecidableEq, Repr

/-- The downloadPromiseFxns reduce of STEP 4 in src/main.ts (lines 698-893,
with the branch selection at lines 866-893): for each potential video,
push the promise functions the if-chain selects, tagged here by record id
and action kind. -/
def downloadPromiseFxns (downloadType : DownloadType)
    (existingAudioFilesObj existingVideoFilesObj : List (String × String))
    (potentialVideos : List PartialVideoWithDuration) : List (String × DownloadAction) :=
  potentialVideos.foldl (fun acc pv =>
    let audioExistsOnDisk := truthy (lookupFile existingAudioFilesObj pv.id)
    let videoExistsOnDisk := truthy (lookupFile existingVideoFilesObj pv.id)
    let acc1 := if downloadType == DownloadType.both && audioExistsOnDisk && !videoExistsOnDisk
      then acc ++ [(pv.id, DownloadAction.videoOnly)] else acc
    let acc2 := if downloadType == DownloadType.both && !audioExistsOnDisk && videoExistsOnDisk
      then acc1 ++ [(pv.id, DownloadAction.audioOnly)] else acc1
    let acc3 := if downloadType == DownloadType.both && !audioExistsOnDisk && !videoExistsOnDisk
      then acc2 ++ [(pv.id, DownloadAction.audioAndVideo)] else acc2
    let acc4 := if downloadType == DownloadType.video && !videoExistsOnDisk
      then acc3 ++ [(pv.id, DownloadAction.videoOnly)] else acc3
    let acc5 := if downloadType == DownloadType.audio && !audioExistsOnDisk
      then acc4 ++ [(pv.id, DownloadAction.audioOnly)] else acc4
    if downloadType == DownloadType.none
      then acc5 ++ [(pv.id, DownloadAction.metadataOnly)] else acc5) []

/-- C9: with downloadType both, a selected record (available, within the
duration ceiling) is scheduled for exactly the missing kind: only a video
download when the audio file already exists, only an audio download when
the video file already exists, one combined audio-and-video download when
neither exists, and nothing at all when both exist (the record is already
filtered out of the selection). -/
theorem both_downloads_only_missing_kinds (maxDurationSeconds : Option Nat)
    (audioObj videoObj : List (String × String)) (pv : PartialVideoWithDuration)
    (hav : pv.isUnavailable = false)
    (hdur : leMaxDuration pv.durationInSeconds maxDurationSeconds = true) :
    (truthy (lookupFile audioObj pv.id) = true → truthy (lookupFile videoObj pv.id) = false →
      downloadPromiseFxns DownloadType.both audioObj videoObj
        (potentialVideosToDownload maxDurationSeconds audioObj videoObj [pv]) =
        [(pv.id, DownloadAction.videoOnly)]) ∧
    (truthy (lookupFile audioObj pv.id) = false → truthy (lookupFile videoObj pv.id) = true →
      downloadPromiseFxns DownloadType.both audioObj videoObj
        (potentialVideosToDownload maxDurationSeconds audioObj videoObj [pv]) =
        [(pv.id, DownloadAction.audioOnly)]) ∧
    (truthy (lookupFile audioObj pv.id) = false → truthy (lookupFile videoObj pv.id) = false →
      downloadPromiseFxns DownloadType.both audioObj videoObj
        (potentialVideosToDownload maxDurationSeconds audioObj videoObj [pv]) =
        [(pv.id, DownloadAction.audioAndVideo)]) ∧
    (truthy (lookupFile audioObj pv.id) = true → truthy (lookupFile videoObj pv.id) = true →
      downloadPromiseFxns DownloadType.both audioObj videoObj
        (potentialVideosToDownload maxDurationSeconds audioObj videoObj [pv]) = []) := by
  refine ⟨?_, ?_, ?_, ?_⟩ <;> intro ha hv <;>
    simp [potentialVideosToDownload, downloadPromiseFxns, hav, hdur, ha, hv]

/-- A potential video used to instantiate the both-policy theorem. -/
def pvdBoth : PartialVideoWithDuration :=
  { toPartialVideo := pvNoDuration, durationInSeconds := 200000 }

theorem both_downloads_only_missing_kinds_witness :
    (downloadPromiseFxns DownloadType.both [("x1", "t [x1].mp3")] []
      (potentialVideosToDownload (some 300000) [("x1", "t [x1].mp3")] [] [pvdBoth]) =
      [(pvdBoth.id, DownloadAction.videoOnly)]) ∧
    downloadPromiseFxns DownloadType.both [("x1", "t [x1].mp3")] [("x1", "t [x1].mp4")]
      (potentialVideosToDownload (some 300000) [("x1", "t [x1].mp3")] [("x1", "t [x1].mp4")]
        [pvdBoth]) = [] :=
  ⟨(both_downloads_only_missing_kinds (some 300000) [("x1", "t [x1].mp3")] [] pvdBoth
      (by decide) (by decide)).1 (by decide) (by decide),
   (both_downloads_only_missing_kinds (some 300000) [("x1", "t [x1].mp3")]
      [("x1", "t [x1].mp4")] pvdBoth (by decide) (by decide)).2.2.2 (by decide) (by decide)⟩

end DlYtPlaylist
